import Mathlib

/-!
Shallow embedding of `src/DynamoAutoScale.py` (LambdaDynamoAutoScale).

The script's only logic is the capacity-adjustment decision run once per
table and once per secondary index (`adjustTableCapacity`,
`adjustTableIndexCapacities`): both run the identical computation on
(decreasesSoFarToday, readCapacity, writeCapacity, peakRead, peakWrite).
Python float arithmetic is modelled exactly over `ℚ`; `math.ceil` is
`Int.ceil`; the module-level constants become an explicit `Config` record
whose `defaultConfig` holds the values of the source file.
-/

namespace DynamoAutoScale

/-- The module-level configuration constants of `DynamoAutoScale.py`
(lines 12-34), gathered into one record so the decision algorithm can be
stated for the shipped values and for arbitrary values alike. -/
structure Config where
  raiseCapacityThreshold : ℚ
  raiseCapacityMultiple : ℚ
  lowerCapacityMultiple : ℚ
  maximumTimesToLowerCapacityPerDay : ℕ
  minimumCapacity : ℚ
  maximumCapacity : ℚ
  emailAddressOfSender : String
  emailAddressesOfRecipients : List String

/-- The constant values exactly as the source file sets them:
0.90, 1.40, 1.15, 1, 3, 5000, empty sender, no recipients. -/
def defaultConfig : Config where
  raiseCapacityThreshold := 9 / 10
  raiseCapacityMultiple := 7 / 5
  lowerCapacityMultiple := 23 / 20
  maximumTimesToLowerCapacityPerDay := 1
  minimumCapacity := 3
  maximumCapacity := 5000
  emailAddressOfSender := ""
  emailAddressesOfRecipients := []

/-- `SECONDS_PER_DATA_POINT` (line 37). -/
def SECONDS_PER_DATA_POINT : ℚ := 300

/-- Lines 73-79: the peak consumed throughput over the metric window,
`max` over `datapoint.Sum / SECONDS_PER_DATA_POINT` starting from 0
(an empty window yields 0). -/
def peakThroughput (sums : List ℚ) : ℚ :=
  sums.foldl (fun peak s => max peak (s / SECONDS_PER_DATA_POINT)) 0

/-- The outcome of the decision algorithm for one unit: the adjusted
read/write capacities after lines 81-97 and the changed flags of
lines 99-100. -/
structure AdjustResult where
  adjustedReadCapacity : ℚ
  adjustedWriteCapacity : ℚ
  readWasUpdated : Bool
  writeWasUpdated : Bool
deriving DecidableEq

/-- Lines 81-100 of `adjustTableCapacity` (identical to lines 164-183 of
`adjustTableIndexCapacities`): start from the current capacities, run the
lower pass (both directions, guarded by the decrease count), then for each
direction the raise pass compared against that direction's original current
capacity, then clamp to [MINIMUM_CAPACITY, MAXIMUM_CAPACITY], and record
whether each direction changed. Sequential reassignment in the source is
`let` shadowing here. -/
def adjustCapacities (cfg : Config) (decreasesSoFarToday : ℕ)
    (readCapacity writeCapacity peakRead peakWrite : ℚ) : AdjustResult :=
  let adjustedWriteCapacity := writeCapacity
  let adjustedReadCapacity := readCapacity
  let adjustedWriteCapacity :=
    if decreasesSoFarToday < cfg.maximumTimesToLowerCapacityPerDay then
      ((⌈peakWrite * cfg.lowerCapacityMultiple⌉ : ℤ) : ℚ)
    else adjustedWriteCapacity
  let adjustedReadCapacity :=
    if decreasesSoFarToday < cfg.maximumTimesToLowerCapacityPerDay then
      ((⌈peakRead * cfg.lowerCapacityMultiple⌉ : ℤ) : ℚ)
    else adjustedReadCapacity
  let adjustedWriteCapacity :=
    if peakWrite > writeCapacity * cfg.raiseCapacityThreshold then
      ((⌈peakWrite * cfg.raiseCapacityMultiple⌉ : ℤ) : ℚ)
    else adjustedWriteCapacity
  let adjustedReadCapacity :=
    if peakRead > readCapacity * cfg.raiseCapacityThreshold then
      ((⌈peakRead * cfg.raiseCapacityMultiple⌉ : ℤ) : ℚ)
    else adjustedReadCapacity
  let adjustedWriteCapacity := max adjustedWriteCapacity cfg.minimumCapacity
  let adjustedWriteCapacity := min adjustedWriteCapacity cfg.maximumCapacity
  let adjustedReadCapacity := max adjustedReadCapacity cfg.minimumCapacity
  let adjustedReadCapacity := min adjustedReadCapacity cfg.maximumCapacity
  { adjustedReadCapacity := adjustedReadCapacity
    adjustedWriteCapacity := adjustedWriteCapacity
    readWasUpdated := decide (adjustedReadCapacity ≠ readCapacity)
    writeWasUpdated := decide (adjustedWriteCapacity ≠ writeCapacity) }

/-- The lower pass for one direction (lines 84-86): when the decrease count
is below the daily ceiling, replace the running value by
`ceil(peak * LOWER_CAPACITY_MULTIPLE)`, else keep the current capacity. -/
def lowerPassValue (cfg : Config) (decreasesSoFarToday : ℕ)
    (currentCapacity peak : ℚ) : ℚ :=
  if decreasesSoFarToday < cfg.maximumTimesToLowerCapacityPerDay then
    ((⌈peak * cfg.lowerCapacityMultiple⌉ : ℤ) : ℚ)
  else currentCapacity

/-- The clamp of lines 94-97 for one direction:
`min (max adjusted MINIMUM_CAPACITY) MAXIMUM_CAPACITY`. -/
def clampCapacity (cfg : Config) (adjusted : ℚ) : ℚ :=
  min (max adjusted cfg.minimumCapacity) cfg.maximumCapacity

/-- The whole decision for one direction, as the source computes it for
read and for write alike: lower pass, then raise pass against the original
current capacity, then clamp. -/
def adjustOne (cfg : Config) (decreasesSoFarToday : ℕ)
    (currentCapacity peak : ℚ) : ℚ :=
  clampCapacity cfg
    (if peak > currentCapacity * cfg.raiseCapacityThreshold then
      ((⌈peak * cfg.raiseCapacityMultiple⌉ : ℤ) : ℚ)
    else lowerPassValue cfg decreasesSoFarToday currentCapacity peak)

/-- Python `int()` on a float that the script applies to the adjusted
capacities (lines 105-106): truncation toward zero. -/
def pyInt (q : ℚ) : ℤ :=
  if 0 ≤ q then ⌊q⌋ else ⌈q⌉

/-- One `update_table` call (lines 104-107 / 187-197): the combined
read/write target values issued in a single command. -/
structure UpdateCommand where
  tableName : String
  readCapacityUnits : ℤ
  writeCapacityUnits : ℤ
deriving DecidableEq

/-- One `sendEmailNotification` call (line 120 / 210). -/
structure EmailNotification where
  subject : String
  body : String
deriving DecidableEq

/-- Everything `adjustTableCapacity` does for one unit after the decision:
the decision outcome, the update commands issued, the notifications
emitted, and the summary line printed. -/
structure UnitOutput where
  result : AdjustResult
  updates : List UpdateCommand
  notifications : List EmailNotification
  logLine : String

/-- Lines 109-118: the human-readable summary line, built by string
concatenation from the unit identity, old capacities, decrease count,
peaks, changed flags and new capacities. -/
def summaryLine (cfg : Config) (tableName : String) (decreasesSoFarToday : ℕ)
    (readCapacity writeCapacity peakRead peakWrite : ℚ) (r : AdjustResult) :
    String :=
  "Dynamo Table: " ++ tableName
    ++ " | Write Capacity: " ++ toString writeCapacity
    ++ " | Read Capacity: " ++ toString readCapacity
    ++ " | Decreases So Far Today: " ++ toString decreasesSoFarToday ++ "/"
    ++ toString cfg.maximumTimesToLowerCapacityPerDay
    ++ " | Peak Read Capacity (24hrs): " ++ toString peakRead
    ++ " | Peak Write Capacity (24hrs): " ++ toString peakWrite
    ++ " | Updated Read: " ++ toString r.readWasUpdated
    ++ " | New Read Capacity: " ++ toString r.adjustedReadCapacity
    ++ " | Updated Write: " ++ toString r.writeWasUpdated
    ++ " | New Write Capacity: " ++ toString r.adjustedWriteCapacity

/-- Lines 73-121 of `adjustTableCapacity`, once the external reads are in
hand: compute the peaks from the metric samples, run the decision, issue
one combined update when either direction changed (line 102), and emit one
notification when a change occurred and a sender and at least one
recipient are configured (lines 119-120). -/
def processUnit (cfg : Config) (tableName : String) (decreasesSoFarToday : ℕ)
    (readCapacity writeCapacity : ℚ) (readSums writeSums : List ℚ) :
    UnitOutput :=
  let peakReadThroughputLastDay := peakThroughput readSums
  let peakWriteThroughputLastDay := peakThroughput writeSums
  let r := adjustCapacities cfg decreasesSoFarToday readCapacity writeCapacity
    peakReadThroughputLastDay peakWriteThroughputLastDay
  let updates :=
    if r.readWasUpdated || r.writeWasUpdated then
      [{ tableName := tableName
         readCapacityUnits := pyInt r.adjustedReadCapacity
         writeCapacityUnits := pyInt r.adjustedWriteCapacity }]
    else []
  let returnString := summaryLine cfg tableName decreasesSoFarToday
    readCapacity writeCapacity peakReadThroughputLastDay
    peakWriteThroughputLastDay r
  let notifications :=
    if (r.readWasUpdated || r.writeWasUpdated)
        && decide (cfg.emailAddressesOfRecipients.length > 0)
        && decide (cfg.emailAddressOfSender ≠ "") then
      [{ subject := "Dynamo Capacity Updated For Table " ++ tableName
         body := "Details: " ++ returnString }]
    else []
  { result := r, updates := updates, notifications := notifications
    logLine := returnString }

/-! ## Helper lemmas -/

theorem foldl_max_init_le (c : ℚ) (l : List ℚ) (a : ℚ) :
    a ≤ l.foldl (fun peak s => max peak (s / c)) a := by
  induction l generalizing a with
  | nil => exact le_rfl
  | cons x xs ih =>
    simp only [List.foldl_cons]
    exact le_trans (le_max_left a (x / c)) (ih (max a (x / c)))

/-- A peak computed from any metric window is nonnegative: the fold starts
at 0 and only takes maxima. -/
theorem peakThroughput_nonneg (sums : List ℚ) : 0 ≤ peakThroughput sums :=
  foldl_max_init_le SECONDS_PER_DATA_POINT sums 0

/-- The read components of the two-direction decision are exactly the
one-direction algorithm on the read inputs. -/
theorem adjustedRead_eq_adjustOne (cfg : Config) (d : ℕ)
    (rc wc pr pw : ℚ) :
    (adjustCapacities cfg d rc wc pr pw).adjustedReadCapacity
      = adjustOne cfg d rc pr :=
  rfl

/-- The write components of the two-direction decision are exactly the
one-direction algorithm on the write inputs. -/
theorem adjustedWrite_eq_adjustOne (cfg : Config) (d : ℕ)
    (rc wc pr pw : ℚ) :
    (adjustCapacities cfg d rc wc pr pw).adjustedWriteCapacity
      = adjustOne cfg d wc pw :=
  rfl

theorem clampCapacity_mono (cfg : Config) {x y : ℚ} (h : x ≤ y) :
    clampCapacity cfg x ≤ clampCapacity cfg y :=
  min_le_min (max_le_max h le_rfl) le_rfl

/-! ## Claims -/

/-- C1: for each direction independently, the raise pass condition is
evaluated against the original current capacity (never the lower pass's
output); when it fires the adjusted value becomes
`ceil(peak * RAISE_CAPACITY_MULTIPLE)` regardless of what the lower pass
computed, and otherwise the lower pass's value stands; the clamp is applied
afterwards. -/
theorem raise_pass_fires_against_original_capacity (cfg : Config) (d : ℕ)
    (rc wc pr pw : ℚ) :
    (adjustCapacities cfg d rc wc pr pw).adjustedReadCapacity
        = clampCapacity cfg
          (if pr > rc * cfg.raiseCapacityThreshold then
            ((⌈pr * cfg.raiseCapacityMultiple⌉ : ℤ) : ℚ)
          else lowerPassValue cfg d rc pr) ∧
    (adjustCapacities cfg d rc wc pr pw).adjustedWriteCapacity
        = clampCapacity cfg
          (if pw > wc * cfg.raiseCapacityThreshold then
            ((⌈pw * cfg.raiseCapacityMultiple⌉ : ℤ) : ℚ)
          else lowerPassValue cfg d wc pw) :=
  ⟨rfl, rfl⟩

/-- C2: when the peak is at most `currentCapacity * RAISE_CAPACITY_THRESHOLD`
and the decrease count has reached the daily ceiling, neither pass fires and
the adjusted capacity is the current capacity clamped to
[MINIMUM_CAPACITY, MAXIMUM_CAPACITY], in both directions. -/
theorem noop_path_keeps_clamped_current_capacity (cfg : Config) (d : ℕ)
    (rc wc pr pw : ℚ)
    (hpr : pr ≤ rc * cfg.raiseCapacityThreshold)
    (hpw : pw ≤ wc * cfg.raiseCapacityThreshold)
    (hd : cfg.maximumTimesToLowerCapacityPerDay ≤ d) :
    (adjustCapacities cfg d rc wc pr pw).adjustedReadCapacity
        = clampCapacity cfg rc ∧
    (adjustCapacities cfg d rc wc pr pw).adjustedWriteCapacity
        = clampCapacity cfg wc := by
  have hdd : ¬ d < cfg.maximumTimesToLowerCapacityPerDay := Nat.not_lt.mpr hd
  constructor
  · show clampCapacity cfg
      (if pr > rc * cfg.raiseCapacityThreshold then
        ((⌈pr * cfg.raiseCapacityMultiple⌉ : ℤ) : ℚ)
      else lowerPassValue cfg d rc pr) = clampCapacity cfg rc
    rw [if_neg (not_lt.mpr hpr), lowerPassValue, if_neg hdd]
  · show clampCapacity cfg
      (if pw > wc * cfg.raiseCapacityThreshold then
        ((⌈pw * cfg.raiseCapacityMultiple⌉ : ℤ) : ℚ)
      else lowerPassValue cfg d wc pw) = clampCapacity cfg wc
    rw [if_neg (not_lt.mpr hpw), lowerPassValue, if_neg hdd]

/-- Witness for C2 at the shipped configuration, decrease count 1,
capacities 10 and peaks 5. -/
theorem noop_path_keeps_clamped_current_capacity_witness :
    (adjustCapacities defaultConfig 1 10 10 5 5).adjustedReadCapacity
        = clampCapacity defaultConfig 10 ∧
    (adjustCapacities defaultConfig 1 10 10 5 5).adjustedWriteCapacity
        = clampCapacity defaultConfig 10 :=
  noop_path_keeps_clamped_current_capacity defaultConfig 1 10 10 5 5
    (by norm_num [defaultConfig]) (by norm_num [defaultConfig]) le_rfl

/-- C5: with the shipped configuration, current capacities 10, decrease
count 0 and peaks 9, the lower pass yields `ceil(9*1.15) = 11`, the raise
condition `9 > 10*0.90` is false because the comparison is strict, and both
directions end at 11 with their changed flags set. -/
theorem scenario_peak_ninety_percent_lower_pass_wins :
    lowerPassValue defaultConfig 0 10 9 = 11 ∧
    ¬ ((9 : ℚ) > 10 * defaultConfig.raiseCapacityThreshold) ∧
    (adjustCapacities defaultConfig 0 10 10 9 9).adjustedReadCapacity = 11 ∧
    (adjustCapacities defaultConfig 0 10 10 9 9).readWasUpdated = true ∧
    (adjustCapacities defaultConfig 0 10 10 9 9).adjustedWriteCapacity = 11 ∧
    (adjustCapacities defaultConfig 0 10 10 9 9).writeWasUpdated = true := by
  have h1 : (⌈(207 / 20 : ℚ)⌉ : ℤ) = 11 := by
    rw [Int.ceil_eq_iff]
    norm_num
  refine ⟨?_, by norm_num [defaultConfig], ?_, ?_, ?_, ?_⟩ <;>
    norm_num [lowerPassValue, adjustCapacities, defaultConfig, max_def,
      min_def, h1]

/-- C10: the two directions do not interfere: the adjusted read capacity
and the read changed flag depend only on the current read capacity, the
read metric samples and the decrease count, whatever the write inputs are;
and symmetrically for write. -/
theorem read_write_noninterference (cfg : Config) (n1 n2 : String) (d : ℕ)
    (rc wc1 wc2 : ℚ) (rs ws1 ws2 : List ℚ)
    (wc rc1 rc2 : ℚ) (ws rs1 rs2 : List ℚ) :
    ((processUnit cfg n1 d rc wc1 rs ws1).result.adjustedReadCapacity
      = (processUnit cfg n2 d rc wc2 rs ws2).result.adjustedReadCapacity) ∧
    ((processUnit cfg n1 d rc wc1 rs ws1).result.readWasUpdated
      = (processUnit cfg n2 d rc wc2 rs ws2).result.readWasUpdated) ∧
    ((processUnit cfg n1 d rc1 wc rs1 ws).result.adjustedWriteCapacity
      = (processUnit cfg n2 d rc2 wc rs2 ws).result.adjustedWriteCapacity) ∧
    ((processUnit cfg n1 d rc1 wc rs1 ws).result.writeWasUpdated
      = (processUnit cfg n2 d rc2 wc rs2 ws).result.writeWasUpdated) :=
  ⟨rfl, rfl, rfl, rfl⟩

/-- C3 counterexample: with the shipped configuration, peak 1 has
`ceil(peak * LOWER_CAPACITY_MULTIPLE) = 2 < MINIMUM_CAPACITY`, yet with the
decrease budget exhausted (decrease count 1) and current capacity 10 the
algorithm returns 10, not `MINIMUM_CAPACITY`. -/
theorem lower_floor_counterexample :
    ((⌈(1 : ℚ) * defaultConfig.lowerCapacityMultiple⌉ : ℤ) : ℚ)
        < defaultConfig.minimumCapacity ∧
    (adjustCapacities defaultConfig 1 10 10 1 1).adjustedReadCapacity ≠
        defaultConfig.minimumCapacity := by
  have h1 : (⌈(23 / 20 : ℚ)⌉ : ℤ) = 2 := by
    rw [Int.ceil_eq_iff]
    norm_num
  constructor
  · norm_num [defaultConfig, h1]
  · norm_num [adjustCapacities, defaultConfig, max_def, min_def]

/-- C3 as amended: when additionally the lower pass actually fires
(decrease count below the daily ceiling), a peak whose lower-pass value
falls below `MINIMUM_CAPACITY` yields exactly `MINIMUM_CAPACITY`, whether
or not the raise pass fires. -/
theorem lower_floor_amended (d : ℕ) (rc pr : ℚ)
    (hd : d < defaultConfig.maximumTimesToLowerCapacityPerDay)
    (h : ((⌈pr * defaultConfig.lowerCapacityMultiple⌉ : ℤ) : ℚ)
        < defaultConfig.minimumCapacity) :
    adjustOne defaultConfig d rc pr = defaultConfig.minimumCapacity := by
  have h2 : ((⌈pr * (23 / 20 : ℚ)⌉ : ℤ) : ℚ) < 3 := h
  have hz : ⌈pr * (23 / 20 : ℚ)⌉ < (3 : ℤ) := by exact_mod_cast h2
  have hle : pr * (23 / 20 : ℚ) ≤ ((2 : ℤ) : ℚ) :=
    Int.ceil_le.mp (by omega)
  have hpr : pr ≤ 40 / 23 := by
    push_cast at hle
    linarith
  have hd1 : d < 1 := hd
  show min (max (if pr > rc * (9 / 10 : ℚ) then ((⌈pr * (7 / 5 : ℚ)⌉ : ℤ) : ℚ)
      else if d < 1 then ((⌈pr * (23 / 20 : ℚ)⌉ : ℤ) : ℚ) else rc) 3) 5000 = 3
  rw [if_pos hd1]
  have hmin : ∀ v : ℚ, v ≤ 3 → min (max v 3) 5000 = (3 : ℚ) := by
    intro v hv
    rw [max_eq_right hv, min_eq_left (by norm_num)]
  rcases lt_or_le (rc * (9 / 10 : ℚ)) pr with hfire | hno
  · rw [if_pos hfire]
    apply hmin
    have hcl : pr * (7 / 5 : ℚ) ≤ ((3 : ℤ) : ℚ) := by
      push_cast
      linarith
    exact_mod_cast Int.ceil_le.mpr hcl
  · rw [if_neg (not_lt.mpr hno)]
    apply hmin
    have hfin : (⌈pr * (23 / 20 : ℚ)⌉ : ℤ) ≤ 3 := by omega
    exact_mod_cast hfin

/-- Witness for the amended C3: decrease count 0, current capacity 10,
peak 1 ends at `MINIMUM_CAPACITY = 3`. -/
theorem lower_floor_amended_witness :
    adjustOne defaultConfig 0 10 1 = defaultConfig.minimumCapacity :=
  lower_floor_amended 0 10 1 (by norm_num [defaultConfig])
    (by
      have h1 : (⌈(23 / 20 : ℚ)⌉ : ℤ) = 2 := by
        rw [Int.ceil_eq_iff]
        norm_num
      norm_num [defaultConfig, h1])

/-- C4 counterexample: with the shipped configuration, peak 3600 has
`ceil(peak * RAISE_CAPACITY_MULTIPLE) = 5040 > MAXIMUM_CAPACITY`, yet with
current capacity 4500 and decrease count 0 the raise condition
`3600 > 4050` is false and the algorithm returns the lower-pass value 4140,
not `MAXIMUM_CAPACITY`. -/
theorem raise_ceiling_counterexample :
    defaultConfig.maximumCapacity
        < ((⌈(3600 : ℚ) * defaultConfig.raiseCapacityMultiple⌉ : ℤ) : ℚ) ∧
    (adjustCapacities defaultConfig 0 4500 4500 3600 3600).adjustedReadCapacity ≠
        defaultConfig.maximumCapacity := by
  have h1 : (⌈(5040 : ℚ)⌉ : ℤ) = 5040 := by
    rw [Int.ceil_eq_iff]
    norm_num
  have h2 : (⌈(4140 : ℚ)⌉ : ℤ) = 4140 := by
    rw [Int.ceil_eq_iff]
    norm_num
  constructor
  · norm_num [defaultConfig, h1]
  · norm_num [adjustCapacities, defaultConfig, max_def, min_def, h1, h2]

/-- C4 as amended: when additionally the raise pass actually fires
(peak above `currentCapacity * RAISE_CAPACITY_THRESHOLD`), a peak whose
raise-pass value exceeds `MAXIMUM_CAPACITY` yields exactly
`MAXIMUM_CAPACITY`. -/
theorem raise_ceiling_amended (d : ℕ) (rc pr : ℚ)
    (hfire : rc * defaultConfig.raiseCapacityThreshold < pr)
    (h : defaultConfig.maximumCapacity
        < ((⌈pr * defaultConfig.raiseCapacityMultiple⌉ : ℤ) : ℚ)) :
    adjustOne defaultConfig d rc pr = defaultConfig.maximumCapacity := by
  have h2 : (5000 : ℚ) < ((⌈pr * (7 / 5 : ℚ)⌉ : ℤ) : ℚ) := h
  have hfire2 : rc * (9 / 10 : ℚ) < pr := hfire
  show min (max (if pr > rc * (9 / 10 : ℚ) then ((⌈pr * (7 / 5 : ℚ)⌉ : ℤ) : ℚ)
      else if d < 1 then ((⌈pr * (23 / 20 : ℚ)⌉ : ℤ) : ℚ) else rc) 3) 5000 = 5000
  rw [if_pos hfire2, max_eq_left (by linarith), min_eq_right (by linarith)]

/-- Witness for the amended C4: decrease count 0, current capacity 4000,
peak 4000 ends at `MAXIMUM_CAPACITY = 5000`. -/
theorem raise_ceiling_amended_witness :
    adjustOne defaultConfig 0 4000 4000 = defaultConfig.maximumCapacity :=
  raise_ceiling_amended 0 4000 4000 (by norm_num [defaultConfig])
    (by
      have h1 : (⌈(5600 : ℚ)⌉ : ℤ) = 5600 := by
        rw [Int.ceil_eq_iff]
        norm_num
      norm_num [defaultConfig, h1])

/-- With the shipped constants, a firing raise pass never produces a
pre-clamp value below the current capacity: from
`peak > cap * 0.90` and `peak ≥ 0` we get `cap ≤ ceil(peak * 1.40)`. -/
theorem cap_le_ceil_raise (cap p : ℚ) (hp : 0 ≤ p)
    (hfire : cap * (9 / 10 : ℚ) < p) :
    cap ≤ ((⌈p * (7 / 5 : ℚ)⌉ : ℤ) : ℚ) := by
  have hceil : p * (7 / 5 : ℚ) ≤ ((⌈p * (7 / 5 : ℚ)⌉ : ℤ) : ℚ) := Int.le_ceil _
  rcases le_or_lt 0 cap with hc | hc
  · nlinarith
  · nlinarith

/-- With the shipped constants, when the decrease budget is exhausted and
the current capacity does not exceed `MAXIMUM_CAPACITY`, the one-direction
decision never goes below the current capacity. -/
theorem adjustOne_no_decrease (d : ℕ) (cap peak : ℚ) (hp : 0 ≤ peak)
    (hd : defaultConfig.maximumTimesToLowerCapacityPerDay ≤ d)
    (hcap : cap ≤ defaultConfig.maximumCapacity) :
    cap ≤ adjustOne defaultConfig d cap peak := by
  have hdd : ¬ d < 1 := Nat.not_lt.mpr hd
  have hcap2 : cap ≤ (5000 : ℚ) := hcap
  show cap ≤ min (max (if peak > cap * (9 / 10 : ℚ)
      then ((⌈peak * (7 / 5 : ℚ)⌉ : ℤ) : ℚ)
      else if d < 1 then ((⌈peak * (23 / 20 : ℚ)⌉ : ℤ) : ℚ) else cap) 3) 5000
  rw [if_neg hdd]
  rcases lt_or_le (cap * (9 / 10 : ℚ)) peak with hfire | hno
  · rw [if_pos hfire]
    exact le_min (le_trans (cap_le_ceil_raise cap peak hp hfire)
      (le_max_left _ _)) hcap2
  · rw [if_neg (not_lt.mpr hno)]
    exact le_min (le_max_left _ _) hcap2

/-- C6 counterexample: with the shipped configuration, the daily ceiling 1
already reached (decrease count 1) and current capacities 6000 with zero
peaks, the algorithm still issues an update lowering the read capacity to
5000: the clamp lowers a capacity above `MAXIMUM_CAPACITY` regardless of
the decrease budget. -/
theorem decrease_budget_counterexample :
    defaultConfig.maximumTimesToLowerCapacityPerDay ≤ 1 ∧
    (adjustCapacities defaultConfig 1 6000 6000 0 0).adjustedReadCapacity
        < 6000 ∧
    (adjustCapacities defaultConfig 1 6000 6000 0 0).readWasUpdated = true := by
  refine ⟨le_rfl, ?_, ?_⟩ <;>
    norm_num [adjustCapacities, defaultConfig, max_def, min_def]

/-- C6 as amended: when the decrease count has reached the daily ceiling
and the current capacities do not exceed `MAXIMUM_CAPACITY`, the decision
never lowers either capacity (so no capacity-lowering update is issued);
only a current capacity above `MAXIMUM_CAPACITY` can still be lowered, by
the clamp, to `MAXIMUM_CAPACITY`. -/
theorem decrease_budget_respected_amended (d : ℕ) (rc wc : ℚ)
    (readSums writeSums : List ℚ)
    (hd : defaultConfig.maximumTimesToLowerCapacityPerDay ≤ d)
    (hrc : rc ≤ defaultConfig.maximumCapacity)
    (hwc : wc ≤ defaultConfig.maximumCapacity) :
    rc ≤ (adjustCapacities defaultConfig d rc wc (peakThroughput readSums)
        (peakThroughput writeSums)).adjustedReadCapacity ∧
    wc ≤ (adjustCapacities defaultConfig d rc wc (peakThroughput readSums)
        (peakThroughput writeSums)).adjustedWriteCapacity :=
  ⟨adjustOne_no_decrease d rc (peakThroughput readSums)
      (peakThroughput_nonneg readSums) hd hrc,
    adjustOne_no_decrease d wc (peakThroughput writeSums)
      (peakThroughput_nonneg writeSums) hd hwc⟩

/-- Witness for the amended C6: decrease count 1, capacities 10, empty
metric windows — neither direction is lowered. -/
theorem decrease_budget_respected_amended_witness :
    (10 : ℚ) ≤ (adjustCapacities defaultConfig 1 10 10 (peakThroughput [])
        (peakThroughput [])).adjustedReadCapacity ∧
    (10 : ℚ) ≤ (adjustCapacities defaultConfig 1 10 10 (peakThroughput [])
        (peakThroughput [])).adjustedWriteCapacity :=
  decrease_budget_respected_amended 1 10 10 [] [] le_rfl
    (by norm_num [defaultConfig]) (by norm_num [defaultConfig])

/-- C8: for a fixed current capacity and decrease count, the adjusted
capacity is monotone nondecreasing in the peak computed from the metric
window; in particular crossing the raise threshold never lowers the
result. -/
theorem adjusted_capacity_monotone_in_peak (d : ℕ) (cap : ℚ)
    (sums1 sums2 : List ℚ)
    (h : peakThroughput sums1 ≤ peakThroughput sums2) :
    adjustOne defaultConfig d cap (peakThroughput sums1)
      ≤ adjustOne defaultConfig d cap (peakThroughput sums2) := by
  have hp1 : 0 ≤ peakThroughput sums1 := peakThroughput_nonneg sums1
  set p1 := peakThroughput sums1 with hp1def
  set p2 := peakThroughput sums2 with hp2def
  have hp2 : 0 ≤ p2 := le_trans hp1 h
  rw [adjustOne, adjustOne]
  apply clampCapacity_mono
  have hmul : ∀ c : ℚ, 0 ≤ c → p1 * c ≤ p2 * c := fun c hc =>
    mul_le_mul_of_nonneg_right h hc
  have hceil : ∀ c : ℚ, 0 ≤ c →
      ((⌈p1 * c⌉ : ℤ) : ℚ) ≤ ((⌈p2 * c⌉ : ℤ) : ℚ) := fun c hc => by
    exact_mod_cast Int.ceil_le_ceil (hmul c hc)
  rcases lt_or_le (cap * defaultConfig.raiseCapacityThreshold) p1 with h1 | h1
  · rw [if_pos (lt_of_lt_of_le h1 h), if_pos h1]
    exact hceil _ (by norm_num [defaultConfig])
  · rw [if_neg (not_lt.mpr h1)]
    rcases lt_or_le (cap * defaultConfig.raiseCapacityThreshold) p2 with h2 | h2
    · rw [if_pos h2, lowerPassValue]
      by_cases hdlt : d < defaultConfig.maximumTimesToLowerCapacityPerDay
      · rw [if_pos hdlt]
        have hstep : p1 * defaultConfig.lowerCapacityMultiple
            ≤ p2 * defaultConfig.raiseCapacityMultiple := by
          have ha : p1 * (23 / 20 : ℚ) ≤ p2 * (23 / 20 : ℚ) :=
            hmul _ (by norm_num)
          have hb : p2 * (23 / 20 : ℚ) ≤ p2 * (7 / 5 : ℚ) := by nlinarith
          exact le_trans ha hb
        exact_mod_cast Int.ceil_le_ceil hstep
      · rw [if_neg hdlt]
        exact cap_le_ceil_raise cap p2 hp2 h2
    · rw [if_neg (not_lt.mpr h2), lowerPassValue, lowerPassValue]
      by_cases hdlt : d < defaultConfig.maximumTimesToLowerCapacityPerDay
      · rw [if_pos hdlt, if_pos hdlt]
        exact hceil _ (by norm_num [defaultConfig])
      · rw [if_neg hdlt, if_neg hdlt]

/-- Witness for C8: at capacity 10, decrease count 0, a window peaking at 1
versus a window peaking at 2. -/
theorem adjusted_capacity_monotone_in_peak_witness :
    adjustOne defaultConfig 0 10 (peakThroughput [300])
      ≤ adjustOne defaultConfig 0 10 (peakThroughput [600]) :=
  adjusted_capacity_monotone_in_peak 0 10 [300] [600]
    (by norm_num [peakThroughput, SECONDS_PER_DATA_POINT, max_def])

/-- The per-unit result is the decision on the peaks of the two metric
windows. -/
theorem processUnit_result (cfg : Config) (n : String) (d : ℕ)
    (rc wc : ℚ) (rs ws : List ℚ) :
    (processUnit cfg n d rc wc rs ws).result
      = adjustCapacities cfg d rc wc (peakThroughput rs) (peakThroughput ws) :=
  rfl

/-- The changed flag records exactly whether the adjusted read capacity
differs from the current one. -/
theorem readWasUpdated_eq (cfg : Config) (d : ℕ) (rc wc pr pw : ℚ) :
    (adjustCapacities cfg d rc wc pr pw).readWasUpdated
      = decide ((adjustCapacities cfg d rc wc pr pw).adjustedReadCapacity ≠ rc) :=
  rfl

/-- The changed flag records exactly whether the adjusted write capacity
differs from the current one. -/
theorem writeWasUpdated_eq (cfg : Config) (d : ℕ) (rc wc pr pw : ℚ) :
    (adjustCapacities cfg d rc wc pr pw).writeWasUpdated
      = decide ((adjustCapacities cfg d rc wc pr pw).adjustedWriteCapacity ≠ wc) :=
  rfl

/-- Line 102: one combined update is issued exactly when either direction
changed. -/
theorem processUnit_updates (cfg : Config) (n : String) (d : ℕ)
    (rc wc : ℚ) (rs ws : List ℚ) :
    (processUnit cfg n d rc wc rs ws).updates
      = (if (processUnit cfg n d rc wc rs ws).result.readWasUpdated
            || (processUnit cfg n d rc wc rs ws).result.writeWasUpdated then
          [{ tableName := n
             readCapacityUnits :=
               pyInt (processUnit cfg n d rc wc rs ws).result.adjustedReadCapacity
             writeCapacityUnits :=
               pyInt (processUnit cfg n d rc wc rs ws).result.adjustedWriteCapacity }]
        else []) :=
  rfl

/-- Lines 119-120: the notification guard. -/
theorem processUnit_notifications (cfg : Config) (n : String) (d : ℕ)
    (rc wc : ℚ) (rs ws : List ℚ) :
    (processUnit cfg n d rc wc rs ws).notifications
      = (if ((processUnit cfg n d rc wc rs ws).result.readWasUpdated
            || (processUnit cfg n d rc wc rs ws).result.writeWasUpdated)
          && decide (cfg.emailAddressesOfRecipients.length > 0)
          && decide (cfg.emailAddressOfSender ≠ "") then
          [{ subject := "Dynamo Capacity Updated For Table " ++ n
             body := "Details: " ++ (processUnit cfg n d rc wc rs ws).logLine }]
        else []) :=
  rfl

/-- C7: a unit's notification list has exactly one element precisely when a
change occurred and both a sender and at least one recipient are
configured; it is empty whenever the sender is empty or the recipient list
is empty, regardless of the change, and empty when nothing changed. -/
theorem notification_iff_change_and_configured (cfg : Config)
    (tableName : String) (d : ℕ) (rc wc : ℚ) (readSums writeSums : List ℚ) :
    ((processUnit cfg tableName d rc wc readSums writeSums).notifications.length = 1
      ↔ ((processUnit cfg tableName d rc wc readSums writeSums).result.readWasUpdated
          || (processUnit cfg tableName d rc wc readSums writeSums).result.writeWasUpdated)
            = true
        ∧ cfg.emailAddressOfSender ≠ "" ∧ cfg.emailAddressesOfRecipients ≠ []) ∧
    ((cfg.emailAddressOfSender = "" ∨ cfg.emailAddressesOfRecipients = []) →
      (processUnit cfg tableName d rc wc readSums writeSums).notifications = []) ∧
    (((processUnit cfg tableName d rc wc readSums writeSums).result.readWasUpdated
        || (processUnit cfg tableName d rc wc readSums writeSums).result.writeWasUpdated)
          = false →
      (processUnit cfg tableName d rc wc readSums writeSums).notifications = []) := by
  have hnotif :=
    processUnit_notifications cfg tableName d rc wc readSums writeSums
  by_cases hs : cfg.emailAddressOfSender = ""
  · rw [hnotif]
    simp [hs]
  · by_cases hr : cfg.emailAddressesOfRecipients = []
    · rw [hnotif]
      simp [hs, hr]
    · have hlen : 0 < cfg.emailAddressesOfRecipients.length :=
        List.length_pos.mpr hr
      rw [hnotif]
      by_cases hb :
          ((processUnit cfg tableName d rc wc readSums writeSums).result.readWasUpdated
            || (processUnit cfg tableName d rc wc readSums writeSums).result.writeWasUpdated)
              = true
      · simp [hs, hr, hb, hlen]
      · simp only [Bool.not_eq_true] at hb
        simp [hs, hr, hb, hlen]

/-- C9: a current capacity outside [MINIMUM_CAPACITY, MAXIMUM_CAPACITY]
forces that direction's changed flag and an update even if neither pass
fires: the clamp alone moves the capacity into range. -/
theorem out_of_range_capacity_forces_update (tableName : String) (d : ℕ)
    (rc wc : ℚ) (readSums writeSums : List ℚ) :
    ((rc < defaultConfig.minimumCapacity ∨ defaultConfig.maximumCapacity < rc) →
      (processUnit defaultConfig tableName d rc wc readSums writeSums).result.readWasUpdated
          = true ∧
      defaultConfig.minimumCapacity
          ≤ (processUnit defaultConfig tableName d rc wc readSums writeSums).result.adjustedReadCapacity ∧
      (processUnit defaultConfig tableName d rc wc readSums writeSums).result.adjustedReadCapacity
          ≤ defaultConfig.maximumCapacity ∧
      (processUnit defaultConfig tableName d rc wc readSums writeSums).updates ≠ []) ∧
    ((wc < defaultConfig.minimumCapacity ∨ defaultConfig.maximumCapacity < wc) →
      (processUnit defaultConfig tableName d rc wc readSums writeSums).result.writeWasUpdated
          = true ∧
      defaultConfig.minimumCapacity
          ≤ (processUnit defaultConfig tableName d rc wc readSums writeSums).result.adjustedWriteCapacity ∧
      (processUnit defaultConfig tableName d rc wc readSums writeSums).result.adjustedWriteCapacity
          ≤ defaultConfig.maximumCapacity ∧
      (processUnit defaultConfig tableName d rc wc readSums writeSums).updates ≠ []) := by
  have hrange : ∀ (dd : ℕ) (cap pk : ℚ), (3 : ℚ) ≤ adjustOne defaultConfig dd cap pk
      ∧ adjustOne defaultConfig dd cap pk ≤ 5000 := by
    intro dd cap pk
    exact ⟨le_min (le_max_right _ _) (by norm_num [defaultConfig]),
      min_le_right _ _⟩
  have hadjr : (processUnit defaultConfig tableName d rc wc readSums writeSums).result.adjustedReadCapacity
      = adjustOne defaultConfig d rc (peakThroughput readSums) := rfl
  have hadjw : (processUnit defaultConfig tableName d rc wc readSums writeSums).result.adjustedWriteCapacity
      = adjustOne defaultConfig d wc (peakThroughput writeSums) := rfl
  have hflagr : (processUnit defaultConfig tableName d rc wc readSums writeSums).result.readWasUpdated
      = decide ((processUnit defaultConfig tableName d rc wc readSums writeSums).result.adjustedReadCapacity ≠ rc) := rfl
  have hflagw : (processUnit defaultConfig tableName d rc wc readSums writeSums).result.writeWasUpdated
      = decide ((processUnit defaultConfig tableName d rc wc readSums writeSums).result.adjustedWriteCapacity ≠ wc) := rfl
  have hupd := processUnit_updates defaultConfig tableName d rc wc readSums writeSums
  constructor
  · intro h
    have hlo : (3 : ℚ) ≤ (processUnit defaultConfig tableName d rc wc readSums writeSums).result.adjustedReadCapacity := by
      rw [hadjr]
      exact (hrange d rc (peakThroughput readSums)).1
    have hhi : (processUnit defaultConfig tableName d rc wc readSums writeSums).result.adjustedReadCapacity ≤ (5000 : ℚ) := by
      rw [hadjr]
      exact (hrange d rc (peakThroughput readSums)).2
    have hne : (processUnit defaultConfig tableName d rc wc readSums writeSums).result.adjustedReadCapacity ≠ rc := by
      rcases h with h | h
      · exact ne_of_gt (lt_of_lt_of_le h hlo)
      · exact ne_of_lt (lt_of_le_of_lt hhi h)
    have hflag : (processUnit defaultConfig tableName d rc wc readSums writeSums).result.readWasUpdated = true := by
      rw [hflagr]
      exact decide_eq_true hne
    refine ⟨hflag, hlo, hhi, ?_⟩
    rw [hupd, hflag]
    simp
  · intro h
    have hlo : (3 : ℚ) ≤ (processUnit defaultConfig tableName d rc wc readSums writeSums).result.adjustedWriteCapacity := by
      rw [hadjw]
      exact (hrange d wc (peakThroughput writeSums)).1
    have hhi : (processUnit defaultConfig tableName d rc wc readSums writeSums).result.adjustedWriteCapacity ≤ (5000 : ℚ) := by
      rw [hadjw]
      exact (hrange d wc (peakThroughput writeSums)).2
    have hne : (processUnit defaultConfig tableName d rc wc readSums writeSums).result.adjustedWriteCapacity ≠ wc := by
      rcases h with h | h
      · exact ne_of_gt (lt_of_lt_of_le h hlo)
      · exact ne_of_lt (lt_of_le_of_lt hhi h)
    have hflag : (processUnit defaultConfig tableName d rc wc readSums writeSums).result.writeWasUpdated = true := by
      rw [hflagw]
      exact decide_eq_true hne
    refine ⟨hflag, hlo, hhi, ?_⟩
    rw [hupd, hflag]
    simp

/-- Closed instance of C9: current read capacity 6000 (above
`MAXIMUM_CAPACITY`), decrease budget exhausted, empty windows — the read
direction is marked changed and an update is issued. -/
theorem out_of_range_capacity_forces_update_witness :
    (processUnit defaultConfig "t" 1 6000 10 [] []).result.readWasUpdated = true ∧
    defaultConfig.minimumCapacity
        ≤ (processUnit defaultConfig "t" 1 6000 10 [] []).result.adjustedReadCapacity ∧
    (processUnit defaultConfig "t" 1 6000 10 [] []).result.adjustedReadCapacity
        ≤ defaultConfig.maximumCapacity ∧
    (processUnit defaultConfig "t" 1 6000 10 [] []).updates ≠ [] :=
  (out_of_range_capacity_forces_update "t" 1 6000 10 [] []).1
    (Or.inr (by norm_num [defaultConfig]))

end DynamoAutoScale
